import Mathlib

/-!
Verification of the tvb-root storage/export subsystem
(`tvb_storage/tvb/storage/storage_interface.py` and
`framework_tvb/tvb/adapters/exporters/export_manager.py`)
against its natural-language specification.

The Python code is shallowly embedded: paths are strings, the filesystem
is an explicit finite state, fallible calls return `Except`, and Python
exceptions propagate by short-circuiting the embedded sequencing.
-/

namespace TVB

/-! ## Path model

Paths are plain strings joined with `/` (the code uses `os.path.join` and
`os.sep`; the deployment is modelled as POSIX). -/

/-- `os.path.join a b` for the single-separator case used by the code. -/
def pjoin (a b : String) : String := a ++ "/" ++ b

/-- `os.path.basename`: the part of the path after the last `/`. -/
def basename (p : String) : String := (p.splitOn "/").getLastD p

/-- Storage root (`TvbProfile.current.TVB_STORAGE`), an opaque fixed prefix. -/
def TVB_STORAGE : String := "TVB_STORAGE"

/-- `StorageInterface.PROJECTS_FOLDER`. -/
def PROJECTS_FOLDER : String := "PROJECTS"

/-- `StorageInterface.TEMP_FOLDER`. -/
def TEMP_FOLDER : String := "TEMP"

/-- `StorageInterface.TVB_PROJECT_FILE = "Project" + ".xml"`. -/
def TVB_PROJECT_FILE : String := "Project" ++ ".xml"

/-- `StorageInterface.ZIP_FILE_EXTENSION`. -/
def ZIP_FILE_EXTENSION : String := "zip"

/-- Modelled from the spec: `FilesHelper.get_project_folder` is not under
`src/`; per the spec's persisted layout, the project folder is
`storageRoot/PROJECTS_FOLDER/<projectName>`. -/
def get_project_folder (project_name : String) : String :=
  pjoin (pjoin TVB_STORAGE PROJECTS_FOLDER) project_name

/-- Modelled from the spec: `FilesHelper.get_operation_folder` is not under
`src/`; per the spec's persisted layout, the operation folder is
`storageRoot/PROJECTS_FOLDER/<projectName>/<operationId>`. -/
def get_operation_folder (project_name : String) (op_id : String) : String :=
  pjoin (get_project_folder project_name) op_id

/-! ## C10: `StorageInterface.get_h5_by_gid`

The code lists the operation folder and returns the first regular file whose
name contains the datatype gid, falling off the end (returning `None`)
otherwise.  The filesystem relevant to this function is the listing of the
operation folder: an ordered list of entries, each with a name and an
`os.path.isfile` flag for the joined path. -/

/-- One directory entry as seen by `os.listdir` plus `os.path.isfile`. -/
structure DirEntry where
  name : String
  isFile : Bool
deriving DecidableEq, Repr

/-- A directory-listing view of the filesystem: which directories exist and,
for each, its ordered entries. -/
structure ListingFS where
  dirs : List (String × List DirEntry)
deriving Repr

/-- `os.listdir path`: the entries when the directory exists. -/
def ListingFS.listdir (fs : ListingFS) (path : String) : Option (List DirEntry) :=
  (fs.dirs.find? (fun d => d.1 = path)).map Prod.snd

/-- Helper for `strContains`: does `needle` occur contiguously in the list? -/
def strContainsAux (needle : List Char) : List Char → Bool
  | [] => needle.isEmpty
  | c :: cs => needle.isPrefixOf (c :: cs) || strContainsAux needle cs

/-- Python `dt_gid in f`: substring containment on strings. -/
def strContains (hay needle : String) : Bool :=
  strContainsAux needle.toList hay.toList

/-- `StorageInterface.get_h5_by_gid(project_name, op_id, dt_gid)`:
list the operation folder; return the joined path of the first entry whose
name contains `dt_gid` and which is a regular file; `none` if no entry
matches.  Raises (`Except.error`) only when the operation folder itself is
missing (`os.listdir` fails). -/
def get_h5_by_gid (fs : ListingFS) (project_name op_id dt_gid : String) :
    Except Unit (Option String) :=
  (fs.listdir (get_operation_folder project_name op_id)).elim (.error ())
    (fun entries =>
      .ok ((entries.find? (fun e => strContains e.name dt_gid && e.isFile)).map
        (fun e => pjoin (get_operation_folder project_name op_id) e.name)))

/-! ## C9: `StorageInterface.cleanup(dir_gid)`

`StorageInterface.cleanup` instantiates `EncryptionHandler(dir_gid)` and calls
its `cleanup`.  `EncryptionHandler` is not under `src/`. -/

/-- State of the encrypted store: which encrypted directories and password
files currently exist (paths, unique per filesystem semantics). -/
structure EncState where
  encryptedDirs : List String
  passwordFiles : List String
deriving DecidableEq, Repr

/-- Modelled from the spec: each `dir_gid` maps deterministically to one
encrypted-directory path (pure function of `dir_gid`). -/
def encrypted_dir_path (dir_gid : String) : String :=
  pjoin TVB_STORAGE ("ENCRYPTED_" ++ dir_gid)

/-- Modelled from the spec: each `dir_gid` maps deterministically to one
password-file path (pure function of `dir_gid`). -/
def password_file_path (dir_gid : String) : String :=
  pjoin TVB_STORAGE ("pass_" ++ dir_gid)

/-- Modelled from the spec: `EncryptionHandler.cleanup` is not under `src/`;
per the spec it "must delete both the encrypted payload and the key
material", and deleting is removal of those paths from the store. -/
def EncryptionHandler.cleanup (dir_gid : String) (st : EncState) : EncState :=
  { encryptedDirs := st.encryptedDirs.filter (fun p => p ≠ encrypted_dir_path dir_gid),
    passwordFiles := st.passwordFiles.filter (fun p => p ≠ password_file_path dir_gid) }

/-- `StorageInterface.cleanup(dir_gid)`: instantiate a handler for `dir_gid`
and run its `cleanup`. -/
def cleanup (dir_gid : String) (st : EncState) : EncState :=
  EncryptionHandler.cleanup dir_gid st

/-- A directory identifier is clean when neither its encrypted payload nor
its key material exists. -/
def EncState.cleanFor (st : EncState) (dir_gid : String) : Prop :=
  encrypted_dir_path dir_gid ∉ st.encryptedDirs ∧
    password_file_path dir_gid ∉ st.passwordFiles

instance (st : EncState) (g : String) : Decidable (st.cleanFor g) := by
  unfold EncState.cleanFor; infer_instance

/-! ## Storage facade filesystem model (for C1 `rename_project`, C5 `remove_project`)

Directories and regular files are tracked by path; project directories are
tracked at whole-directory granularity (the claims only observe whole
project folders, encrypted counterpart folders and the key file).
`failingRemovals` models the I/O environment: paths whose removal raises an
`OSError`; such a failure propagates before the primitive mutates anything. -/

structure StorageFS where
  dirs : List String
  files : List String
  encryptionEnabled : Bool
  /-- per-folder `(projectUsageCount, runningOpCount)`, absent = `(0, 0)` -/
  usage : List (String × Nat × Nat)
  failingRemovals : List String
deriving DecidableEq, Repr

/-- `os.path.exists`. -/
def path_exists (fs : StorageFS) (p : String) : Bool :=
  p ∈ fs.dirs || p ∈ fs.files

/-- `DataEncryptionHandler.encryption_enabled()`: configuration flag. -/
def encryption_enabled (fs : StorageFS) : Bool :=
  fs.encryptionEnabled

/-- The usage counters of a folder (absent entries count as zero). -/
def StorageFS.countersOf (fs : StorageFS) (folder : String) : Nat × Nat :=
  ((fs.usage.find? (fun e => e.1 = folder)).map Prod.snd).getD (0, 0)

/-- Modelled from the spec: `DataEncryptionHandler.is_in_usage` is not under
`src/`; per the spec's `UsageCounters`, a folder is in active use when some
usage count (`projectUsageCount` or `runningOpCount`) is non-zero. -/
def is_in_usage (fs : StorageFS) (project_folder : String) : Bool :=
  (fs.countersOf project_folder).1 != 0 || (fs.countersOf project_folder).2 != 0

/-- Modelled from the spec: `DataEncryptionHandler.compute_encrypted_folder_path`
is not under `src/`; per the spec it is a deterministic sibling path computed
purely from the plaintext project folder. -/
def compute_encrypted_folder_path (current_project_folder : String) : String :=
  current_project_folder ++ "_encrypted"

/-- Modelled from the spec: `DataEncryptionHandler.project_key_path` is not
under `src/`; a deterministic per-project key-file path outside the
plaintext project tree. -/
def project_key_path (project_id : Nat) : String :=
  pjoin TVB_STORAGE ("project_keys_" ++ toString project_id)

/-- Modelled from the spec: `FilesHelper.rename_project_structure` is not
under `src/`; it renames the plaintext project folder from the old to the
new name. -/
def rename_project_structure (fs : StorageFS) (project_name new_name : String) :
    StorageFS :=
  { fs with dirs := fs.dirs.map (fun d =>
      if d = get_project_folder project_name then get_project_folder new_name else d) }

/-- `os.rename(src, dest)` on a directory entry. -/
def os_rename (fs : StorageFS) (src dest : String) : StorageFS :=
  { fs with dirs := fs.dirs.map (fun d => if d = src then dest else d) }

/-- The rename error raised by `rename_project`
(`RenameWhileSyncEncryptingException`). -/
inductive RenameException where
  | renameWhileSyncEncrypting
deriving DecidableEq, Repr

/-- `StorageInterface.rename_project(current_proj_name, new_name)`: raise
`RenameWhileSyncEncryptingException` when encryption is enabled and the
project folder is NOT in usage; otherwise rename the plaintext structure
and, if the encrypted counterpart path exists, `os.rename` it to the path
computed from the new name. -/
def rename_project (fs : StorageFS) (current_proj_name new_name : String) :
    Except RenameException StorageFS :=
  let project_folder := get_project_folder current_proj_name
  if encryption_enabled fs && !(is_in_usage fs project_folder) then
    .error .renameWhileSyncEncrypting
  else
    let fs1 := rename_project_structure fs current_proj_name new_name
    let encrypted_path := compute_encrypted_folder_path project_folder
    if path_exists fs1 encrypted_path then
      .ok (os_rename fs1 encrypted_path
        (compute_encrypted_folder_path (get_project_folder new_name)))
    else
      .ok fs1

/-- A project record (`project.name`, `project.id`, `project.gid`). -/
structure Project where
  name : String
  id : Nat
  gid : String
deriving DecidableEq, Repr

/-- A raised `OSError`. -/
inductive OSError where
  | ioError
deriving DecidableEq, Repr

/-- Modelled from the spec: `FilesHelper.remove_project_structure` is not
under `src/`; it removes the plaintext project tree, raising (and leaving
the filesystem at its state at the raise point) when the I/O environment
makes that removal fail. -/
def remove_project_structure (fs : StorageFS) (project_name : String) :
    StorageFS × Option OSError :=
  if get_project_folder project_name ∈ fs.failingRemovals then
    (fs, some .ioError)
  else
    ({ fs with dirs := fs.dirs.filter (fun d => d ≠ get_project_folder project_name) },
      none)

/-- `FilesHelper.remove_folder` (via `StorageInterface.remove_folder`). -/
def remove_folder (fs : StorageFS) (p : String) : StorageFS :=
  { fs with dirs := fs.dirs.filter (fun d => d ≠ p) }

/-- `os.remove` on a regular file. -/
def os_remove (fs : StorageFS) (p : String) : StorageFS :=
  { fs with files := fs.files.filter (fun f => f ≠ p) }

/-- The `if os.path.exists(path): remove_folder(path)` block. -/
def remove_dir_if_exists (fs : StorageFS) (p : String) : StorageFS :=
  if path_exists fs p then remove_folder fs p else fs

/-- The `if os.path.exists(path): os.remove(path)` block. -/
def remove_file_if_exists (fs : StorageFS) (p : String) : StorageFS :=
  if path_exists fs p then os_remove fs p else fs

/-- `StorageInterface.remove_project(project)`: remove the plaintext
structure; then, if the encrypted counterpart path exists, remove it; then,
if the project key file exists, remove it.  An exception from the plaintext
removal propagates, skipping the later steps. -/
def remove_project (fs : StorageFS) (project : Project) : StorageFS × Option OSError :=
  match remove_project_structure fs project.name with
  | (fs1, some e) => (fs1, some e)
  | (fs1, none) =>
      (remove_file_if_exists
        (remove_dir_if_exists fs1
          (compute_encrypted_folder_path (get_project_folder project.name)))
        (project_key_path project.id), none)

/-! ## Export manager: `export_data` (C4, C8)

`ExportManager.export_data(data, exporter_id, project)` validates its
arguments, then creates a per-call staging folder and runs the chosen
exporter's `export` inside a `try`/`finally` that removes the folder when
it ends up empty.  Exporters are external collaborators; an exporter is
modelled by the data gids it accepts, the files its `export` writes into
the staging folder, whether `export` raises, and its returned triple. -/

/-- The export root `ExportManager.export_folder`
(`TVB_STORAGE/EXPORT_TMP`). -/
def export_folder : String := pjoin TVB_STORAGE "EXPORT_TMP"

/-- A datatype handed to `export_data` (only its `gid` is observable here). -/
structure DataT where
  gid : String
deriving DecidableEq, Repr

/-- Model of a registered exporter (an external collaborator):
`accepts` lists the accepted data gids; `exportFiles` are the filenames its
`export` writes into the staging folder; `exportRaises` says whether
`export` then raises; `result` is the `(name, path, deletable)` triple it
returns otherwise. -/
structure ExporterM where
  accepts : List String
  exportFiles : List String
  exportRaises : Bool
  result : String × String × Bool
deriving DecidableEq, Repr

/-- Filesystem view for `export_data`: existing directories, and regular
files as (folder, filename) pairs. -/
structure StagingFS where
  dirs : List String
  files : List (String × String)
deriving DecidableEq, Repr

/-- `FilesHelper.check_created`: create the directory. -/
def StagingFS.mkdir (fs : StagingFS) (p : String) : StagingFS :=
  { fs with dirs := fs.dirs ++ [p] }

/-- `os.listdir folder` restricted to files (sufficient here: nothing
creates subdirectories of a staging folder). -/
def StagingFS.listdirFiles (fs : StagingFS) (folder : String) : List String :=
  (fs.files.filter (fun f => f.1 = folder)).map Prod.snd

/-- `os.rmdir folder`. -/
def StagingFS.rmdir (fs : StagingFS) (folder : String) : StagingFS :=
  { fs with dirs := fs.dirs.filter (fun d => d ≠ folder) }

/-- Write a batch of files into a folder (what the exporter's `export`
produces into the staging folder). -/
def StagingFS.addFiles (fs : StagingFS) (folder : String) (names : List String) :
    StagingFS :=
  { fs with files := fs.files ++ names.map (fun n => (folder, n)) }

/-- `StorageInterface.build_data_export_folder(data, export_folder)`: a
staging folder named `<date-with-microseconds>@<gid>` under the export
folder, created on the spot.  The formatted timestamp is the `date_str`
parameter. -/
def build_data_export_folder_path (date_str gid : String) (folder : String) : String :=
  pjoin folder (date_str ++ "@" ++ gid)

/-- The error taxonomy of the export manager:
`invalidExportData` = `InvalidExportDataException`,
`exportException` = `ExportException`, and `exporterRaise` stands for an
arbitrary exception propagating out of the exporter's `export` step. -/
inductive ExportErr where
  | invalidExportData
  | exportException
  | exporterRaise
  /-- a Python `TypeError` raised by positional-argument binding -/
  | typeError
  /-- a Python `AttributeError` raised by attribute access on `None` -/
  | attributeError
deriving DecidableEq, Repr

/-- `ExportManager.export_data(data, exporter_id, project)`:
raise `InvalidExportDataException` for null data; `ExportException` for a
null exporter id; `ExportException` for an unregistered exporter id;
`ExportException` for a null project; `InvalidExportDataException` when the
exporter does not accept the data; otherwise create the staging folder, run
the exporter, and — in a `finally` — remove the staging folder if no file
was produced into it.  Returns the final filesystem and the outcome. -/
def export_data (fs : StagingFS) (date_str : String) (data : Option DataT)
    (exporter_id : Option String) (project : Option Project)
    (all_exporters : List (String × ExporterM)) :
    StagingFS × Except ExportErr (String × String × Bool) :=
  data.elim (fs, .error .invalidExportData) (fun d =>
    exporter_id.elim (fs, .error .exportException) (fun eid =>
      (all_exporters.find? (fun p => p.1 = eid)).elim (fs, .error .exportException)
        (fun pr =>
          project.elim (fs, .error .exportException) (fun _ =>
            if d.gid ∈ pr.2.accepts then
              let folder := build_data_export_folder_path date_str d.gid export_folder
              let fs1 := (fs.mkdir folder).addFiles folder pr.2.exportFiles
              let fs2 := if (fs1.listdirFiles folder).isEmpty then fs1.rmdir folder
                else fs1
              if pr.2.exportRaises then (fs2, .error .exporterRaise)
              else (fs2, .ok pr.2.result)
            else (fs, .error .invalidExportData)))))

/-! ## Zip archive model and project export (C2, C3, C6)

An open zip archive is the ordered list of entries written to it so far.
`write_zip_folder(folder, archive_path_prefix, exclude)` is kept symbolic as
one entry (the folder with its archive prefix and exclusion list);
`write(file_name, arc)` is a file entry. -/

/-- One entry written into the archive. -/
inductive ZipEntry where
  /-- a folder written with an archive path prefix and an exclusion list -/
  | folderE (folder : String) (arcPre : String) (exclude : List String)
  /-- a single file written under an explicit archive path -/
  | arcE (file_name : String) (arc : String)
deriving DecidableEq, Repr

/-- Zip-building state: entries of the currently open archive, plus the
directories on disk (the export flow removes the synthetic import-operation
folder from disk after archiving it). -/
structure ZipSt where
  entries : List ZipEntry
  dirs : List String
deriving DecidableEq, Repr

/-- `StorageInterface.write_zip_folder(folder, archive_path_prefix, exclude)`. -/
def write_zip_folder (st : ZipSt) (folder arcPre : String) (exclude : List String) :
    ZipSt :=
  { st with entries := st.entries ++ [.folderE folder arcPre exclude] }

/-- `StorageInterface.write_zip_arc(file_name, arc)`. -/
def write_zip_arc (st : ZipSt) (file_name arc : String) : ZipSt :=
  { st with entries := st.entries ++ [.arcE file_name arc] }

/-- `StorageInterface.remove_folder` as it acts on the zip-building state. -/
def zip_remove_folder (st : ZipSt) (p : String) : ZipSt :=
  { st with dirs := st.dirs.filter (fun d => d ≠ p) }

/-- Operation status (`model_operation.STATUS_*`). -/
inductive OpStatus where
  | created
  | started
  | finished
  | error
deriving DecidableEq, Repr

/-- Modelled from the spec: `model_operation.Operation` is an external
collaborator record; only the fields the export flow reads are kept.
Timestamps are abstract instants (`Nat`). -/
structure ModelOperation where
  id : String
  projectName : String
  status : OpStatus
  startDate : Option Nat
  completionDate : Option Nat
deriving DecidableEq, Repr

/-- A datatype row as the export query returns it (`dt.fk_from_operation`). -/
structure Datatype where
  fk_from_operation : Nat
deriving DecidableEq, Repr

/-- `StorageInterface.export_datatypes(paths, operation)`: write each path
into the open archive under `<operation folder basename>/<file basename>`,
then remove the operation folder from disk. -/
def export_datatypes (st : ZipSt) (paths : List String) (operation : ModelOperation) :
    ZipSt :=
  let op_folder := get_operation_folder operation.projectName operation.id
  let op_folder_name := basename op_folder
  let st1 := paths.foldl
    (fun s pth => write_zip_arc s pth (op_folder_name ++ "/" ++ basename pth)) st
  zip_remove_folder st1 op_folder

/-- `ExportManager._export_linked_datatypes(project)`: with no linked
datatypes return `(None, None)`; otherwise synthesize a completed import
pseudo-operation — id set to `'links-to-external-projects'`, `start_now()`
and `mark_complete(STATUS_FINISHED)` stamping start and completion with the
current instant (`Operation`/`dao` are collaborators modelled from the
spec) — and return the linked paths with it. -/
def export_linked_datatypes_mgr (project : Project) (linked_paths : List String)
    (now : Nat) : Option (List String) × Option ModelOperation :=
  if linked_paths.isEmpty then (none, none)
  else
    (some linked_paths,
      some { id := "links-to-external-projects", projectName := project.name,
             status := .finished, startDate := some now, completionDate := some now })

/-- The op ids first seen while scanning `project_datatypes` against an
accumulator of already-considered ids — the order in which the
`optimize_size` loop of `StorageInterface.export_project` emits one pack
per not-yet-considered `dt.fk_from_operation`. -/
def new_op_ids : List Datatype → List Nat → List Nat
  | [], _ => []
  | dt :: rest, considered =>
      if dt.fk_from_operation ∈ considered then new_op_ids rest considered
      else dt.fk_from_operation :: new_op_ids rest (considered ++ [dt.fk_from_operation])

/-- The pack the `optimize_size` loop builds for one operation id: the
operation folder, an archive path prefixed by the id, and the exclusions. -/
def optimized_pack (project_name : String) (folders_to_exclude : List String)
    (op_id : Nat) : ZipEntry :=
  .folderE (get_operation_folder project_name (toString op_id))
    (toString op_id ++ "/") folders_to_exclude

/-- Modelled from the spec: `FilesHelper.get_project_meta_file_path` is not
under `src/`; the project metadata file lives at
`<project folder>/Project.xml`. -/
def get_project_meta_file_path (project_name : String) : String :=
  pjoin (get_project_folder project_name) TVB_PROJECT_FILE

/-- `StorageInterface.export_project(project, project_datatypes,
folders_to_exclude, export_folder, linked_paths, op, optimize_size)`:
build the pack list (per-operation packs deduplicated by op id when
`optimize_size`, else the whole project folder with `TEMP` appended to the
exclusions), open a fresh zip in the per-call export folder, write the
packs, write the linked datatypes through `export_datatypes` when
`linked_paths` is not `None`, and append `Project.xml` only when
`optimize_size`.  Returns the archive path and the final state. -/
def storage_export_project (st : ZipSt) (project : Project)
    (project_datatypes : List Datatype) (folders_to_exclude : List String)
    (exp_folder : String) (linked_paths : Option (List String))
    (op : ModelOperation) (optimize_size : Bool) (now_str date_str : String) :
    String × ZipSt :=
  let project_folder := get_project_folder project.name
  let to_be_exported_folders :=
    if optimize_size then
      (new_op_ids project_datatypes []).map
        (optimized_pack project.name folders_to_exclude)
    else
      [ZipEntry.folderE project_folder "" (folders_to_exclude ++ [TEMP_FOLDER])]
  let zip_file_name := now_str ++ "_" ++ project.name ++ "." ++ ZIP_FILE_EXTENSION
  let data_export_folder := build_data_export_folder_path date_str project.gid exp_folder
  let result_path := pjoin data_export_folder zip_file_name
  let st1 : ZipSt := { entries := [], dirs := st.dirs ++ [data_export_folder] }
  let st2 := to_be_exported_folders.foldl
    (fun s pack => { s with entries := s.entries ++ [pack] }) st1
  let st3 := linked_paths.elim st2 (fun paths => export_datatypes st2 paths op)
  let st4 := if optimize_size then
      write_zip_arc st3 (get_project_meta_file_path project.name) TVB_PROJECT_FILE
    else st3
  (result_path, st4)

/-- The folder entries of an archive, in order. -/
def folder_entries (l : List ZipEntry) : List ZipEntry :=
  l.filter (fun e => match e with | .folderE .. => true | _ => false)

/-! ## `ExportManager.export_project` and its call into the storage layer (C2)

`ExportManager.export_project` validates the project, computes the error
operations to exclude and the linked datatypes, then calls
`self.storage_interface.export_project(project, folders_to_exclude,
self.export_folder, linked_paths, op)`.  Python binds positional arguments
against the callee's signature before running the body and raises
`TypeError` when the counts differ. -/

/-- Number of positional arguments (after `self`) the call site in
`ExportManager.export_project` supplies: `project, folders_to_exclude,
self.export_folder, linked_paths, op`. -/
def export_manager_call_args : Nat := 5

/-- Number of parameters (after `self`) the signature of
`StorageInterface.export_project` requires: `project, project_datatypes,
folders_to_exclude, export_folder, linked_paths, op, optimize_size`. -/
def storage_export_project_params : Nat := 7

/-- `ExportManager._get_op_with_errors(project_id)`: the ids of the
project's operations whose status is error (`dao` is a collaborator
modelled from the spec as the status filter). -/
def get_op_with_errors (project_ops : List ModelOperation) : List String :=
  (project_ops.filter (fun o => o.status = OpStatus.error)).map (fun o => o.id)

/-- `ExportManager.export_project(project)`: raise `ExportException` for a
null project; otherwise compute the excluded folders and the linked
datatypes, then perform the storage call — whose positional binding raises
`TypeError` because the argument and parameter counts differ (the matching
branch is provably unreachable). -/
def export_manager_export_project (project : Option Project)
    (project_ops : List ModelOperation) (linked_paths : List String) (now : Nat) :
    Except ExportErr String :=
  project.elim (.error .exportException) (fun p =>
    let folders_to_exclude := get_op_with_errors project_ops
    let lp_op := export_linked_datatypes_mgr p linked_paths now
    if h : export_manager_call_args = storage_export_project_params then
      absurd h (by decide)
    else .error .typeError)

/-! ## Simulator-configuration export (C7)

`ExportManager.export_simulator_configuration(burst_id)` stages the burst's
view-models and datatypes under a temporary `exported_simulation` folder and
strips `history_gid` from the copied root view-model.  It then calls
`self.storage_interface.write_zip_folder(result_path, tmp_sim_folder)`;
`StorageInterface.write_zip_folder(folder, archive_path_prefix, exclude)`
delegates to `self.tvb_zip.write_zip_folder(...)`, and `self.tvb_zip` — set
to `None` in `StorageInterface.__init__` and assigned only by
`initialize_tvb_zip` (directly or via `unpack_zip`/`namelist`), none of
which this flow runs — is still `None`, so the attribute access raises
`AttributeError` before any zipping, staging-folder removal or return.
Files carry their metadata keys; `h5.gather_references_of_view_model` is a
collaborator, so the gathered view-model and datatype paths are inputs. -/

/-- `ExportManager.EXPORTED_SIMULATION_NAME`. -/
def EXPORTED_SIMULATION_NAME : String := "exported_simulation"

/-- `ExportManager.EXPORTED_SIMULATION_DTS_DIR`. -/
def EXPORTED_SIMULATION_DTS_DIR : String := "datatypes"

/-- Filesystem with per-file metadata keys: regular files are
`(path, metadata keys)`; directories are tracked by path. -/
structure H5FS where
  files : List (String × List String)
  dirs : List String
deriving DecidableEq, Repr

/-- The metadata keys of the file at `p` (first entry; empty if absent). -/
def H5FS.metaOf (fs : H5FS) (p : String) : List String :=
  ((fs.files.find? (fun f => f.1 = p)).map Prod.snd).getD []

/-- `StorageInterface.copy_file(source, dest)`: the destination receives the
source's content, metadata included. -/
def copy_file (fs : H5FS) (src dest : String) : H5FS :=
  { fs with files := fs.files ++ [(dest, fs.metaOf src)] }

/-- `H5File.remove_metadata_param(path, key)` (an external collaborator of
the blob store: drop one metadata key from the file at `path`). -/
def remove_metadata_param (fs : H5FS) (path key : String) : H5FS :=
  { fs with files := fs.files.map (fun f =>
      if f.1 = path then (f.1, f.2.filter (fun k => k ≠ key)) else f) }

/-- Bool test: does `s` start with `pre`? -/
def str_starts_with (s pre : String) : Bool :=
  pre.data.isPrefixOf s.data

/-- `StorageInterface.write_zip_folder(folder, archive_path_prefix, exclude)`
as invoked on an instance whose `tvb_zip` attribute is the first argument:
the method body is `self.tvb_zip.write_zip_folder(...)`, so when the
attribute is `None` (its `__init__` value) the access raises
`AttributeError`; otherwise the folder is written into the open zip with
the given archive path prefix. -/
def interface_write_zip_folder (tvb_zip : Option ZipSt) (folder arcPre : String)
    (exclude : List String) : Except ExportErr ZipSt :=
  match tvb_zip with
  | none => .error .attributeError
  | some z => .ok (write_zip_folder z folder arcPre exclude)

/-- `remove_folder(folder)`: drop the directory and everything under it. -/
def h5_remove_folder (fs : H5FS) (folder : String) : H5FS :=
  { files := fs.files.filter (fun f => !(str_starts_with f.1 (folder ++ "/"))),
    dirs := fs.dirs.filter (fun d => d ≠ folder) }

/-- Modelled from the spec: `h5.determine_filepath(gid, folder)` is an
external collaborator; the datatype's global id is embedded in the
filename, so the file for `gid` inside `folder` is `<folder>/<gid>.h5`. -/
def determine_filepath (gid folder : String) : String :=
  pjoin folder (gid ++ ".h5")

/-- The burst record as read by the export
(`burst.gid`, `burst.simulator_gid`, `burst.project.name`,
`burst.fk_simulation`). -/
structure Burst where
  gid : String
  simulator_gid : String
  projectName : String
  fk_simulation : Nat
deriving DecidableEq, Repr

/-- The copying loops: each path is copied into `dest_folder` under its
basename. -/
def copy_files_to (dest_folder : String) : H5FS → List String → H5FS
  | fs, [] => fs
  | fs, p :: rest =>
      copy_files_to dest_folder (copy_file fs p (pjoin dest_folder (basename p))) rest

/-- `ExportManager.export_simulator_configuration(burst_id)`: raise
`InvalidExportDataException` when the burst does not exist; otherwise copy
the gathered view-models plus the burst file into the staging
`exported_simulation` folder and the datatypes into its `datatypes`
subdirectory, strip `history_gid` from the copied root view-model, then
call `self.storage_interface.write_zip_folder(result_path, tmp_sim_folder)`
(`tvb_zip` is the storage interface's attribute at this point — `None` in
this flow, nothing having initialized it).  An exception from that call
propagates, skipping the staging-folder removal and the return; otherwise
the staging folder is removed and the archive path returned. -/
def export_simulator_configuration (fs : H5FS) (burst : Option Burst)
    (vm_paths dt_paths : List String) (date_str now_str : String) (burst_id : Nat)
    (tvb_zip : Option ZipSt) : H5FS × Except ExportErr String :=
  burst.elim (fs, .error .invalidExportData) (fun b =>
    let op_folder := get_operation_folder b.projectName (toString b.fk_simulation)
    let tmp_export_folder := build_data_export_folder_path date_str b.gid export_folder
    let tmp_sim_folder := pjoin tmp_export_folder EXPORTED_SIMULATION_NAME
    let fs0 := { fs with dirs := fs.dirs ++ [tmp_export_folder] }
    let fs1 := if tmp_sim_folder ∈ fs0.dirs then fs0
      else { fs0 with dirs := fs0.dirs ++ [tmp_sim_folder] }
    let burst_path := determine_filepath b.gid op_folder
    let all_view_model_paths := vm_paths ++ [burst_path]
    let fs2 := copy_files_to tmp_sim_folder fs1 all_view_model_paths
    let fs3 := copy_files_to (pjoin tmp_sim_folder EXPORTED_SIMULATION_DTS_DIR) fs2 dt_paths
    let main_vm_path := determine_filepath b.simulator_gid tmp_sim_folder
    let fs4 := remove_metadata_param fs3 main_vm_path "history_gid"
    let zip_file_name := now_str ++ "_" ++ toString burst_id ++ "." ++ ZIP_FILE_EXTENSION
    let result_path := pjoin tmp_export_folder zip_file_name
    match interface_write_zip_folder tvb_zip result_path tmp_sim_folder [] with
    | .error e => (fs4, .error e)
    | .ok _ => (h5_remove_folder fs4 tmp_sim_folder, .ok result_path))

end TVB

namespace TVB

/-! ## Theorems for C9 and C10 -/

theorem cleanup_filter_idem (l : List String) (p : String) :
    (l.filter (fun q => q ≠ p)).filter (fun q => q ≠ p) =
      l.filter (fun q => q ≠ p) := by
  simp [List.filter_filter]

/-- C9: `cleanup(dirGid)` is idempotent — calling it twice in a row leaves
the same state as calling it once, and calling it on an already-clean
directory is a no-op (returns the state unchanged) rather than an error. -/
theorem cleanup_idempotent (dir_gid : String) (st : EncState) :
    cleanup dir_gid (cleanup dir_gid st) = cleanup dir_gid st ∧
      (st.cleanFor dir_gid → cleanup dir_gid st = st) := by
  constructor
  · simp [cleanup, EncryptionHandler.cleanup, cleanup_filter_idem]
  · rintro ⟨h1, h2⟩
    unfold cleanup EncryptionHandler.cleanup
    cases st with
    | mk dirs passes =>
      simp only [EncState.mk.injEq]
      constructor
      · exact List.filter_eq_self.mpr (fun a ha => by
          simp only [ne_eq, decide_eq_true_eq]
          rintro rfl; exact h1 ha)
      · exact List.filter_eq_self.mpr (fun a ha => by
          simp only [ne_eq, decide_eq_true_eq]
          rintro rfl; exact h2 ha)

/-- Witness for C9 at a concrete state holding an encrypted dir for "g1". -/
theorem cleanup_idempotent_witness :
    (cleanup "g1" (cleanup "g1"
        ⟨[encrypted_dir_path "g1"], [password_file_path "g1"]⟩) =
      cleanup "g1" ⟨[encrypted_dir_path "g1"], [password_file_path "g1"]⟩) ∧
    (EncState.cleanFor ⟨[], []⟩ "g1" → cleanup "g1" ⟨[], []⟩ = ⟨[], []⟩) :=
  ⟨(cleanup_idempotent "g1" _).1, (cleanup_idempotent "g1" ⟨[], []⟩).2⟩

/-- C10: when the operation folder exists, `get_h5_by_gid` does not raise:
it returns the path (join of the folder and the entry name) of some regular
file in that folder whose filename contains the gid, and returns `none`
when no entry of the folder is a regular file containing the gid. -/
theorem get_h5_by_gid_spec (fs : ListingFS) (project_name op_id dt_gid : String)
    (entries : List DirEntry)
    (hex : fs.listdir (get_operation_folder project_name op_id) = some entries) :
    (∀ p, get_h5_by_gid fs project_name op_id dt_gid = .ok (some p) →
      ∃ e ∈ entries, e.isFile = true ∧ strContains e.name dt_gid = true ∧
        p = pjoin (get_operation_folder project_name op_id) e.name) ∧
    ((∀ e ∈ entries, ¬(strContains e.name dt_gid = true ∧ e.isFile = true)) →
      get_h5_by_gid fs project_name op_id dt_gid = .ok none) := by
  constructor
  · intro p hp
    unfold get_h5_by_gid at hp
    rw [hex] at hp
    simp only [Option.elim, Except.ok.injEq, Option.map_eq_some'] at hp
    obtain ⟨e, hfind, hpe⟩ := hp
    have hmem := List.mem_of_find?_eq_some hfind
    have hprop := List.find?_some hfind
    simp only [Bool.and_eq_true, decide_eq_true_eq] at hprop
    exact ⟨e, hmem, hprop.2, hprop.1, hpe.symm⟩
  · intro hnone
    unfold get_h5_by_gid
    rw [hex]
    simp only [Option.elim, Except.ok.injEq, Option.map_eq_none']
    apply List.find?_eq_none.mpr
    intro e he
    simp only [Bool.and_eq_true, decide_eq_true_eq]
    exact hnone e he

/-! ## Theorems for C1 (`rename_project`) and C5 (`remove_project`) -/

theorem mem_map_rename_of_mem (l : List String) (a b : String) (h : a ∈ l) :
    b ∈ l.map (fun d => if d = a then b else d) :=
  List.mem_map.mpr ⟨a, h, by simp⟩

theorem not_mem_map_rename (l : List String) (a b : String) (h : b ≠ a) :
    a ∉ l.map (fun d => if d = a then b else d) := by
  intro hmem
  obtain ⟨d, hd, heq⟩ := List.mem_map.mp hmem
  by_cases hda : d = a
  · rw [if_pos hda] at heq; exact h heq
  · rw [if_neg hda] at heq; exact hda heq

theorem mem_map_rename_iff (l : List String) (a b p : String)
    (hpa : p ≠ a) (hpb : p ≠ b) :
    p ∈ l.map (fun d => if d = a then b else d) ↔ p ∈ l := by
  constructor
  · intro hmem
    obtain ⟨d, hd, heq⟩ := List.mem_map.mp hmem
    by_cases hda : d = a
    · rw [if_pos hda] at heq; exact absurd heq.symm hpb
    · rw [if_neg hda] at heq; rwa [heq] at hd
  · intro hp
    exact List.mem_map.mpr ⟨p, hp, by rw [if_neg hpa]⟩

/-- C1 counterexample: with encryption enabled and the project folder in
active use (non-zero usage count), `rename_project` does NOT fail — it
succeeds, contradicting the claim that this situation raises
`RenameWhileSyncEncryptingException`. -/
theorem rename_project_claim_counterexample :
    encryption_enabled
        ⟨[get_project_folder "A"], [], true, [(get_project_folder "A", 1, 0)], []⟩ = true ∧
    is_in_usage
        ⟨[get_project_folder "A"], [], true, [(get_project_folder "A", 1, 0)], []⟩
        (get_project_folder "A") = true ∧
    (rename_project
        ⟨[get_project_folder "A"], [], true, [(get_project_folder "A", 1, 0)], []⟩
        "A" "B").isOk = true := by
  refine ⟨rfl, rfl, ?_⟩
  rfl

/-- C1 (amended): `rename_project` fails with
`RenameWhileSyncEncryptingException` exactly when encryption is enabled and
the project folder is NOT in active use; otherwise it renames the plaintext
project folder and, if the encrypted counterpart path exists, renames the
encrypted folder to the path computed from the new name, touching no other
directory. -/
theorem rename_project_amended (fs : StorageFS) (cur new : String)
    (h1 : get_project_folder cur ∈ fs.dirs)
    (h2 : get_project_folder new ≠ get_project_folder cur)
    (h3 : compute_encrypted_folder_path (get_project_folder cur) ≠ get_project_folder cur)
    (h4 : compute_encrypted_folder_path (get_project_folder cur) ≠ get_project_folder new)
    (h5 : compute_encrypted_folder_path (get_project_folder new) ≠
      compute_encrypted_folder_path (get_project_folder cur))
    (h6 : compute_encrypted_folder_path (get_project_folder new) ≠ get_project_folder cur) :
    (encryption_enabled fs = true ∧ is_in_usage fs (get_project_folder cur) = false →
      rename_project fs cur new = .error .renameWhileSyncEncrypting) ∧
    ((encryption_enabled fs = true → is_in_usage fs (get_project_folder cur) = true) →
      ∃ fs', rename_project fs cur new = .ok fs' ∧
        get_project_folder new ∈ fs'.dirs ∧
        get_project_folder cur ∉ fs'.dirs ∧
        (compute_encrypted_folder_path (get_project_folder cur) ∈ fs.dirs →
          compute_encrypted_folder_path (get_project_folder new) ∈ fs'.dirs ∧
          compute_encrypted_folder_path (get_project_folder cur) ∉ fs'.dirs) ∧
        (∀ p, p ≠ get_project_folder cur → p ≠ get_project_folder new →
          p ≠ compute_encrypted_folder_path (get_project_folder cur) →
          p ≠ compute_encrypted_folder_path (get_project_folder new) →
          (p ∈ fs'.dirs ↔ p ∈ fs.dirs))) := by
  constructor
  · rintro ⟨henc, husage⟩
    simp [rename_project, henc, husage]
  · intro hcond
    have hfalse : (encryption_enabled fs && !(is_in_usage fs (get_project_folder cur))) = false := by
      cases he : encryption_enabled fs with
      | false => simp
      | true => simp [hcond he]
    unfold rename_project
    simp only [hfalse, Bool.false_eq_true, if_false]
    have hfs1dirs : (rename_project_structure fs cur new).dirs =
        fs.dirs.map (fun d =>
          if d = get_project_folder cur then get_project_folder new else d) := rfl
    by_cases hpe : path_exists (rename_project_structure fs cur new)
        (compute_encrypted_folder_path (get_project_folder cur)) = true
    · simp only [hpe, if_true]
      refine ⟨_, rfl, ?_, ?_, ?_, ?_⟩
      · exact List.mem_map.mpr
          ⟨get_project_folder new,
            by rw [hfs1dirs]; exact mem_map_rename_of_mem _ _ _ h1,
            by rw [if_neg (fun h => h4 h.symm)]⟩
      · intro hmem
        obtain ⟨d, hd, heq⟩ := List.mem_map.mp hmem
        rw [hfs1dirs] at hd
        by_cases hde : d = compute_encrypted_folder_path (get_project_folder cur)
        · rw [if_pos hde] at heq; exact h6 heq
        · rw [if_neg hde] at heq; rw [heq] at hd
          exact not_mem_map_rename _ _ _ h2 hd
      · intro hencmem
        constructor
        · apply mem_map_rename_of_mem
          rw [hfs1dirs]
          exact (mem_map_rename_iff _ _ _ _ h3 h4).mpr hencmem
        · exact not_mem_map_rename _ _ _ h5
      · intro p hp1 hp2 hp3 hp4
        rw [os_rename]
        constructor
        · intro hmem
          have := (mem_map_rename_iff _ _ _ p hp3 hp4).mp hmem
          rw [hfs1dirs] at this
          exact (mem_map_rename_iff _ _ _ p hp1 hp2).mp this
        · intro hmem
          apply (mem_map_rename_iff _ _ _ p hp3 hp4).mpr
          rw [hfs1dirs]
          exact (mem_map_rename_iff _ _ _ p hp1 hp2).mpr hmem
    · simp only [hpe, if_false]
      refine ⟨_, rfl, ?_, ?_, ?_, ?_⟩
      · rw [hfs1dirs]; exact mem_map_rename_of_mem _ _ _ h1
      · rw [hfs1dirs]; exact not_mem_map_rename _ _ _ h2
      · intro hmem
        exfalso
        apply hpe
        simp only [path_exists, Bool.or_eq_true, decide_eq_true_eq]
        left
        rw [hfs1dirs]
        exact (mem_map_rename_iff _ _ _ _ h3 h4).mpr hmem
      · intro p hp1 hp2 _ _
        rw [hfs1dirs]
        exact mem_map_rename_iff _ _ _ p hp1 hp2

/-- Witness for C1 (amended) at concrete states: one where encryption is
enabled and the folder is idle (rename refused), one where encryption is
disabled (rename succeeds and moves the existing encrypted counterpart). -/
theorem rename_project_amended_witness :
    (rename_project
        ⟨[get_project_folder "A"], [], true, [], []⟩ "A" "B" =
      .error .renameWhileSyncEncrypting) ∧
    (∃ fs', rename_project
        ⟨[get_project_folder "A",
          compute_encrypted_folder_path (get_project_folder "A")], [], false, [], []⟩
        "A" "B" = .ok fs' ∧
      get_project_folder "B" ∈ fs'.dirs ∧
      get_project_folder "A" ∉ fs'.dirs ∧
      (compute_encrypted_folder_path (get_project_folder "A") ∈
          [get_project_folder "A", compute_encrypted_folder_path (get_project_folder "A")] →
        compute_encrypted_folder_path (get_project_folder "B") ∈ fs'.dirs ∧
        compute_encrypted_folder_path (get_project_folder "A") ∉ fs'.dirs) ∧
      (∀ p, p ≠ get_project_folder "A" → p ≠ get_project_folder "B" →
        p ≠ compute_encrypted_folder_path (get_project_folder "A") →
        p ≠ compute_encrypted_folder_path (get_project_folder "B") →
        (p ∈ fs'.dirs ↔
          p ∈ [get_project_folder "A",
            compute_encrypted_folder_path (get_project_folder "A")]))) := by
  constructor
  · exact (rename_project_amended ⟨[get_project_folder "A"], [], true, [], []⟩ "A" "B"
      (by decide) (by decide) (by decide) (by decide) (by decide) (by decide)).1
      ⟨rfl, rfl⟩
  · exact (rename_project_amended
      ⟨[get_project_folder "A",
        compute_encrypted_folder_path (get_project_folder "A")], [], false, [], []⟩
      "A" "B"
      (by decide) (by decide) (by decide) (by decide) (by decide) (by decide)).2
      (by intro h; exact absurd h (by decide))

theorem remove_dir_if_exists_files (fs : StorageFS) (p : String) :
    (remove_dir_if_exists fs p).files = fs.files := by
  unfold remove_dir_if_exists remove_folder
  split <;> rfl

theorem remove_file_if_exists_dirs (fs : StorageFS) (p : String) :
    (remove_file_if_exists fs p).dirs = fs.dirs := by
  unfold remove_file_if_exists os_remove
  split <;> rfl

theorem not_mem_remove_dir_if_exists (fs : StorageFS) (p : String) :
    p ∉ (remove_dir_if_exists fs p).dirs := by
  unfold remove_dir_if_exists
  split
  · unfold remove_folder
    simp [List.mem_filter]
  · next h =>
      intro hmem
      exact h (by simp [path_exists, hmem])

theorem not_mem_remove_file_if_exists (fs : StorageFS) (p : String) :
    p ∉ (remove_file_if_exists fs p).files := by
  unfold remove_file_if_exists
  split
  · unfold os_remove
    simp [List.mem_filter]
  · next h =>
      intro hmem
      exact h (by simp [path_exists, hmem])

theorem not_mem_dirs_remove_dir_if_exists_mono (fs : StorageFS) (p q : String)
    (h : q ∉ fs.dirs) : q ∉ (remove_dir_if_exists fs p).dirs := by
  unfold remove_dir_if_exists
  split
  · unfold remove_folder
    simp only [List.mem_filter]
    rintro ⟨hq, _⟩
    exact h hq
  · exact h

/-- C5: `remove_project` removes the plaintext structure first; if that
removal fails, the encrypted counterpart folder and the project key file
are left untouched; on success, the plaintext folder, the encrypted folder
and the key file are all gone. -/
theorem remove_project_spec (fs : StorageFS) (project : Project) :
    (∀ e, (remove_project fs project).2 = some e →
      ((compute_encrypted_folder_path (get_project_folder project.name) ∈
          (remove_project fs project).1.dirs ↔
        compute_encrypted_folder_path (get_project_folder project.name) ∈ fs.dirs) ∧
       (project_key_path project.id ∈ (remove_project fs project).1.files ↔
        project_key_path project.id ∈ fs.files))) ∧
    ((remove_project fs project).2 = none →
      get_project_folder project.name ∉ (remove_project fs project).1.dirs ∧
      compute_encrypted_folder_path (get_project_folder project.name) ∉
        (remove_project fs project).1.dirs ∧
      project_key_path project.id ∉ (remove_project fs project).1.files) := by
  by_cases hfail : get_project_folder project.name ∈ fs.failingRemovals
  · constructor
    · intro e _
      have : remove_project fs project = (fs, some .ioError) := by
        simp [remove_project, remove_project_structure, hfail]
      rw [this]
      exact ⟨Iff.rfl, Iff.rfl⟩
    · intro hnone
      have : remove_project fs project = (fs, some .ioError) := by
        simp [remove_project, remove_project_structure, hfail]
      rw [this] at hnone
      simp at hnone
  · have hstruct : remove_project_structure fs project.name = ({ fs with dirs := fs.dirs.filter (fun d => d ≠ get_project_folder project.name) }, none) := by
      simp [remove_project_structure, hfail]
    constructor
    · intro e he
      exfalso
      unfold remove_project at he
      rw [hstruct] at he
      simp at he
    · intro _
      have hplain : get_project_folder project.name ∉
          (fs.dirs.filter (fun d => d ≠ get_project_folder project.name)) := by
        simp [List.mem_filter]
      unfold remove_project
      rw [hstruct]
      refine ⟨?_, ?_, ?_⟩
      · rw [remove_file_if_exists_dirs]
        exact not_mem_dirs_remove_dir_if_exists_mono _ _ _ hplain
      · rw [remove_file_if_exists_dirs]
        exact not_mem_remove_dir_if_exists _ _
      · exact not_mem_remove_file_if_exists _ _

/-- Witness for C5 at concrete states: one where removing the plaintext
tree fails (encrypted folder and key file survive), one where it succeeds
(everything is removed). -/
theorem remove_project_spec_witness :
    ((compute_encrypted_folder_path (get_project_folder "A") ∈
        (remove_project
          ⟨[get_project_folder "A",
            compute_encrypted_folder_path (get_project_folder "A")],
           [project_key_path 1], false, [], [get_project_folder "A"]⟩
          ⟨"A", 1, "ag"⟩).1.dirs ↔
      compute_encrypted_folder_path (get_project_folder "A") ∈
        (StorageFS.mk [get_project_folder "A",
            compute_encrypted_folder_path (get_project_folder "A")]
          [project_key_path 1] false [] [get_project_folder "A"]).dirs) ∧
     (project_key_path 1 ∈
        (remove_project
          ⟨[get_project_folder "A",
            compute_encrypted_folder_path (get_project_folder "A")],
           [project_key_path 1], false, [], [get_project_folder "A"]⟩
          ⟨"A", 1, "ag"⟩).1.files ↔
      project_key_path 1 ∈
        (StorageFS.mk [get_project_folder "A",
            compute_encrypted_folder_path (get_project_folder "A")]
          [project_key_path 1] false [] [get_project_folder "A"]).files)) ∧
    (get_project_folder "A" ∉
        (remove_project
          ⟨[get_project_folder "A",
            compute_encrypted_folder_path (get_project_folder "A")],
           [project_key_path 1], false, [], []⟩ ⟨"A", 1, "ag"⟩).1.dirs ∧
      compute_encrypted_folder_path (get_project_folder "A") ∉
        (remove_project
          ⟨[get_project_folder "A",
            compute_encrypted_folder_path (get_project_folder "A")],
           [project_key_path 1], false, [], []⟩ ⟨"A", 1, "ag"⟩).1.dirs ∧
      project_key_path 1 ∉
        (remove_project
          ⟨[get_project_folder "A",
            compute_encrypted_folder_path (get_project_folder "A")],
           [project_key_path 1], false, [], []⟩ ⟨"A", 1, "ag"⟩).1.files) :=
  ⟨(remove_project_spec _ _).1 .ioError (by decide),
   (remove_project_spec _ _).2 (by decide)⟩

/-! ## Theorems for C4 and C8 (`export_data`) -/

/-- C4 counterexample: (a) a null exporter id raises `ExportException`
(the claim says `InvalidExportData`); (b) an exporter that rejects the data
raises `InvalidExportDataException` (the claim says `ExportFailure`). -/
theorem export_data_claim_counterexample :
    (export_data ⟨[], []⟩ "t" (some ⟨"g"⟩) none (some ⟨"P", 1, "pg"⟩) []).2 =
      .error .exportException ∧
    (export_data ⟨[], []⟩ "t" (some ⟨"g"⟩) (some "TVBExporter") (some ⟨"P", 1, "pg"⟩)
        [("TVBExporter", ⟨["other"], [], false, ("n", "p", false)⟩)]).2 =
      .error .invalidExportData := by
  constructor <;> rfl

/-- C4 (amended): `export_data` raises `InvalidExportDataException` when the
data is null or the chosen exporter does not accept the data, and raises
`ExportException` when the exporter id is null, the exporter id is not
registered, or no project is given. -/
theorem export_data_error_taxonomy (fs : StagingFS) (date_str : String)
    (d : DataT) (eid : String) (eidO : Option String) (projO : Option Project)
    (proj : Project) (reg : List (String × ExporterM)) :
    (export_data fs date_str none eidO projO reg).2 = .error .invalidExportData ∧
    (export_data fs date_str (some d) none projO reg).2 = .error .exportException ∧
    (reg.find? (fun p => p.1 = eid) = none →
      (export_data fs date_str (some d) (some eid) projO reg).2 =
        .error .exportException) ∧
    (∀ pr, reg.find? (fun p => p.1 = eid) = some pr →
      (export_data fs date_str (some d) (some eid) none reg).2 =
        .error .exportException) ∧
    (∀ pr, reg.find? (fun p => p.1 = eid) = some pr → d.gid ∉ pr.2.accepts →
      (export_data fs date_str (some d) (some eid) (some proj) reg).2 =
        .error .invalidExportData) := by
  refine ⟨rfl, rfl, ?_, ?_, ?_⟩
  · intro hfind
    simp [export_data, Option.elim, hfind]
  · intro pr hfind
    simp [export_data, Option.elim, hfind]
  · intro pr hfind hrej
    simp [export_data, Option.elim, hfind, hrej]

/-- Witness for C4 (amended) at concrete inputs covering the three
hypothesis-bearing conjuncts. -/
theorem export_data_error_taxonomy_witness :
    ((export_data ⟨[], []⟩ "t" (some ⟨"g"⟩) (some "NoSuch") (some ⟨"P", 1, "pg"⟩)
        [("TVBExporter", ⟨["g"], [], false, ("n", "p", false)⟩)]).2 =
      .error .exportException) ∧
    ((export_data ⟨[], []⟩ "t" (some ⟨"g"⟩) (some "TVBExporter") none
        [("TVBExporter", ⟨["g"], [], false, ("n", "p", false)⟩)]).2 =
      .error .exportException) ∧
    ((export_data ⟨[], []⟩ "t" (some ⟨"g"⟩) (some "TVBExporter") (some ⟨"P", 1, "pg"⟩)
        [("TVBExporter", ⟨["other"], [], false, ("n", "p", false)⟩)]).2 =
      .error .invalidExportData) :=
  ⟨(export_data_error_taxonomy ⟨[], []⟩ "t" ⟨"g"⟩ "NoSuch" none none ⟨"P", 1, "pg"⟩
      [("TVBExporter", ⟨["g"], [], false, ("n", "p", false)⟩)]).2.2.1 (by rfl),
   (export_data_error_taxonomy ⟨[], []⟩ "t" ⟨"g"⟩ "TVBExporter" none none ⟨"P", 1, "pg"⟩
      [("TVBExporter", ⟨["g"], [], false, ("n", "p", false)⟩)]).2.2.2.1 _ (by rfl),
   (export_data_error_taxonomy ⟨[], []⟩ "t" ⟨"g"⟩ "TVBExporter" none none ⟨"P", 1, "pg"⟩
      [("TVBExporter", ⟨["other"], [], false, ("n", "p", false)⟩)]).2.2.2.2 _
      (by rfl) (by decide)⟩

/-- C8: whatever the chosen exporter does — including raising from its
`export` step — if it produced no file into the per-call staging folder,
that folder is removed by the end of the `export_data` call. -/
theorem export_data_staging_cleanup (fs : StagingFS) (date_str : String)
    (d : DataT) (eid : String) (proj : Project)
    (reg : List (String × ExporterM)) (pr : String × ExporterM)
    (hfind : reg.find? (fun p => p.1 = eid) = some pr)
    (haccepts : d.gid ∈ pr.2.accepts)
    (hempty : pr.2.exportFiles = [])
    (hfresh : fs.listdirFiles
      (build_data_export_folder_path date_str d.gid export_folder) = []) :
    build_data_export_folder_path date_str d.gid export_folder ∉
      (export_data fs date_str (some d) (some eid) (some proj) reg).1.dirs := by
  simp only [StagingFS.listdirFiles] at hfresh
  have hnot : ∀ l : List String,
      build_data_export_folder_path date_str d.gid export_folder ∉
        l.filter (fun x =>
          x ≠ build_data_export_folder_path date_str d.gid export_folder) := by
    intro l hmem
    rcases List.mem_filter.mp hmem with ⟨_, hne⟩
    simp at hne
  cases hr : pr.2.exportRaises <;>
    simp [export_data, Option.elim, hfind, haccepts, hempty, hr,
      StagingFS.mkdir, StagingFS.addFiles, StagingFS.listdirFiles,
      StagingFS.rmdir, hfresh, hnot]

/-- Witness for C8 at a concrete input: a raising exporter that produced
nothing; the staging folder is gone afterwards. -/
theorem export_data_staging_cleanup_witness :
    build_data_export_folder_path "t" "g" export_folder ∉
      (export_data ⟨[], []⟩ "t" (some ⟨"g"⟩) (some "E") (some ⟨"P", 1, "pg"⟩)
        [("E", ⟨["g"], [], true, ("n", "p", false)⟩)]).1.dirs :=
  export_data_staging_cleanup ⟨[], []⟩ "t" ⟨"g"⟩ "E" ⟨"P", 1, "pg"⟩
    [("E", ⟨["g"], [], true, ("n", "p", false)⟩)]
    ("E", ⟨["g"], [], true, ("n", "p", false)⟩)
    (by rfl) (by decide) rfl rfl

/-! ## Theorems for C2 (broken manager-to-storage call) and C6 (linked datatypes) -/

/-- No path survives filtering out itself. -/
theorem not_mem_filter_ne_self (l : List String) (p : String) :
    p ∉ l.filter (fun x => x ≠ p) := by
  intro hmem
  rcases List.mem_filter.mp hmem with ⟨_, hne⟩
  simp at hne

/-- A path of the form `a ++ "/" ++ b` is never the bare project metadata
filename (`Project.xml` contains no slash). -/
theorem append_slash_ne_project_file (a b : String) : a ++ "/" ++ b ≠ TVB_PROJECT_FILE := by
  intro h
  have hm : '/' ∈ (a ++ "/" ++ b).data := by
    rw [String.data_append, String.data_append]
    exact List.mem_append_left _ (List.mem_append_right _ (by decide))
  rw [h] at hm
  revert hm
  decide

/-- C2: `ExportManager.export_project` raises `ExportException` on a null
project, but on every non-null project it raises `TypeError`: the call into
`StorageInterface.export_project` supplies 5 positional arguments to a
signature requiring 7, so no archive path is ever returned. -/
theorem export_manager_export_project_spec (project_ops : List ModelOperation)
    (linked_paths : List String) (now : Nat) (p : Project) :
    export_manager_export_project none project_ops linked_paths now =
      .error .exportException ∧
    export_manager_call_args ≠ storage_export_project_params ∧
    export_manager_export_project (some p) project_ops linked_paths now =
      .error .typeError :=
  ⟨rfl, by decide, rfl⟩

/-- Writing a batch of single-file arcs is appending the corresponding
entries. -/
theorem foldl_write_zip_arc (g : String → String) (paths : List String) :
    ∀ st : ZipSt,
      paths.foldl (fun s pth => write_zip_arc s pth (g pth)) st =
        { st with entries := st.entries ++
            paths.map (fun pth => ZipEntry.arcE pth (g pth)) } := by
  induction paths with
  | nil => intro st; simp
  | cons x xs ih =>
      intro st
      rw [List.foldl_cons, ih (write_zip_arc st x (g x))]
      cases st with
      | mk entries dirs => simp [write_zip_arc, List.append_assoc]

theorem export_datatypes_entries (st : ZipSt) (paths : List String)
    (operation : ModelOperation) :
    (export_datatypes st paths operation).entries =
      st.entries ++ paths.map (fun pth =>
        ZipEntry.arcE pth
          (basename (get_operation_folder operation.projectName operation.id) ++ "/" ++
            basename pth)) := by
  simp only [export_datatypes]
  rw [foldl_write_zip_arc
    (fun pth => basename (get_operation_folder operation.projectName operation.id) ++
      "/" ++ basename pth) paths st]
  rfl

theorem export_datatypes_dirs (st : ZipSt) (paths : List String)
    (operation : ModelOperation) :
    get_operation_folder operation.projectName operation.id ∉
      (export_datatypes st paths operation).dirs := by
  simp only [export_datatypes]
  rw [foldl_write_zip_arc
    (fun pth => basename (get_operation_folder operation.projectName operation.id) ++
      "/" ++ basename pth) paths st]
  exact not_mem_filter_ne_self _ _

/-- `export_datatypes` appends one arc per path (archive path prefixed by
the operation folder's basename) and removes the operation folder from
disk. -/
theorem export_datatypes_spec (st : ZipSt) (paths : List String)
    (operation : ModelOperation) :
    (export_datatypes st paths operation).entries =
      st.entries ++ paths.map (fun pth =>
        ZipEntry.arcE pth
          (basename (get_operation_folder operation.projectName operation.id) ++ "/" ++
            basename pth)) ∧
    get_operation_folder operation.projectName operation.id ∉
      (export_datatypes st paths operation).dirs :=
  ⟨export_datatypes_entries st paths operation, export_datatypes_dirs st paths operation⟩

/-- C6: with no linked datatypes `_export_linked_datatypes` returns
`(None, None)`; with linked datatypes it returns them with a completed
pseudo-operation of import kind — fixed id `'links-to-external-projects'`, status
finished, start and completion stamped `now` — and `export_datatypes` then
writes the linked files under that operation's folder name and removes the
temporary operation folder from disk. -/
theorem export_linked_datatypes_spec (project : Project) (linked_paths : List String)
    (now : Nat) :
    (linked_paths = [] →
      export_linked_datatypes_mgr project linked_paths now = (none, none)) ∧
    (linked_paths ≠ [] →
      ∃ op, export_linked_datatypes_mgr project linked_paths now =
          (some linked_paths, some op) ∧
        op.id = "links-to-external-projects" ∧
        op.status = .finished ∧
        op.startDate = some now ∧
        op.completionDate = some now ∧
        ∀ st : ZipSt,
          (export_datatypes st linked_paths op).entries =
            st.entries ++ linked_paths.map (fun pth =>
              ZipEntry.arcE pth
                (basename (get_operation_folder project.name op.id) ++ "/" ++
                  basename pth)) ∧
          get_operation_folder project.name op.id ∉
            (export_datatypes st linked_paths op).dirs) := by
  constructor
  · intro h
    simp [export_linked_datatypes_mgr, h]
  · intro h
    cases linked_paths with
    | nil => exact absurd rfl h
    | cons q qs =>
        refine ⟨_, rfl, rfl, rfl, rfl, rfl, ?_⟩
        intro st
        exact export_datatypes_spec st (q :: qs) _

/-- Witness for C6: an empty link list yields `(None, None)`; a singleton
link list yields the synthetic finished operation and the archived link. -/
theorem export_linked_datatypes_spec_witness :
    (export_linked_datatypes_mgr ⟨"P", 1, "pg"⟩ [] 5 = (none, none)) ∧
    (∃ op, export_linked_datatypes_mgr ⟨"P", 1, "pg"⟩ ["a/b.h5"] 5 =
        (some ["a/b.h5"], some op) ∧
      op.id = "links-to-external-projects" ∧
      op.status = .finished ∧
      op.startDate = some 5 ∧
      op.completionDate = some 5 ∧
      ∀ st : ZipSt,
        (export_datatypes st ["a/b.h5"] op).entries =
          st.entries ++ ["a/b.h5"].map (fun pth =>
            ZipEntry.arcE pth
              (basename (get_operation_folder "P" op.id) ++ "/" ++ basename pth)) ∧
        get_operation_folder "P" op.id ∉ (export_datatypes st ["a/b.h5"] op).dirs) :=
  ⟨(export_linked_datatypes_spec ⟨"P", 1, "pg"⟩ [] 5).1 rfl,
   (export_linked_datatypes_spec ⟨"P", 1, "pg"⟩ ["a/b.h5"] 5).2 (by decide)⟩

/-! ## Theorems for C3 (`StorageInterface.export_project` archive content) -/

theorem new_op_ids_not_mem_considered (dts : List Datatype) :
    ∀ considered, ∀ x ∈ new_op_ids dts considered, x ∉ considered := by
  induction dts with
  | nil =>
      intro c x hx
      simp [new_op_ids] at hx
  | cons dt rest ih =>
      intro c x hx
      by_cases hmem : dt.fk_from_operation ∈ c
      · simp only [new_op_ids] at hx
        rw [if_pos hmem] at hx
        exact ih c x hx
      · simp only [new_op_ids] at hx
        rw [if_neg hmem] at hx
        rcases List.mem_cons.mp hx with rfl | hx'
        · exact hmem
        · intro hxc
          exact ih (c ++ [dt.fk_from_operation]) x hx' (List.mem_append_left _ hxc)

theorem new_op_ids_nodup (dts : List Datatype) :
    ∀ considered, (new_op_ids dts considered).Nodup := by
  induction dts with
  | nil =>
      intro c
      simp [new_op_ids]
  | cons dt rest ih =>
      intro c
      by_cases hmem : dt.fk_from_operation ∈ c
      · simp only [new_op_ids]
        rw [if_pos hmem]
        exact ih c
      · simp only [new_op_ids]
        rw [if_neg hmem]
        refine List.nodup_cons.mpr ⟨?_, ih _⟩
        intro hx
        exact new_op_ids_not_mem_considered rest (c ++ [dt.fk_from_operation]) _ hx
          (List.mem_append_right _ (by simp))

theorem new_op_ids_sound (dts : List Datatype) :
    ∀ considered, ∀ x ∈ new_op_ids dts considered,
      ∃ dt ∈ dts, dt.fk_from_operation = x := by
  induction dts with
  | nil =>
      intro c x hx
      simp [new_op_ids] at hx
  | cons dt rest ih =>
      intro c x hx
      by_cases hmem : dt.fk_from_operation ∈ c
      · simp only [new_op_ids] at hx
        rw [if_pos hmem] at hx
        obtain ⟨d, hd, hde⟩ := ih c x hx
        exact ⟨d, List.mem_cons_of_mem _ hd, hde⟩
      · simp only [new_op_ids] at hx
        rw [if_neg hmem] at hx
        rcases List.mem_cons.mp hx with rfl | hx'
        · exact ⟨dt, List.mem_cons_self _ _, rfl⟩
        · obtain ⟨d, hd, hde⟩ := ih (c ++ [dt.fk_from_operation]) x hx'
          exact ⟨d, List.mem_cons_of_mem _ hd, hde⟩

theorem new_op_ids_complete (dts : List Datatype) :
    ∀ considered, ∀ dt ∈ dts,
      dt.fk_from_operation ∈ considered ∨
        dt.fk_from_operation ∈ new_op_ids dts considered := by
  induction dts with
  | nil =>
      intro c dt h
      simp at h
  | cons d rest ih =>
      intro c dt hdt
      rcases List.mem_cons.mp hdt with rfl | hdt'
      · by_cases hmem : dt.fk_from_operation ∈ c
        · exact Or.inl hmem
        · right
          simp only [new_op_ids]
          rw [if_neg hmem]
          exact List.mem_cons_self _ _
      · by_cases hmem : d.fk_from_operation ∈ c
        · simp only [new_op_ids]
          rw [if_pos hmem]
          exact ih c dt hdt'
        · simp only [new_op_ids]
          rw [if_neg hmem]
          rcases ih (c ++ [d.fk_from_operation]) dt hdt' with h | h
          · rcases List.mem_append.mp h with h' | h'
            · exact Or.inl h'
            · right
              simp only [List.mem_singleton] at h'
              rw [h']
              exact List.mem_cons_self _ _
          · exact Or.inr (List.mem_cons_of_mem _ h)

/-- Writing the pack list is appending it to the open archive's entries. -/
theorem foldl_write_packs (l : List ZipEntry) :
    ∀ s : ZipSt,
      l.foldl (fun s pack => { s with entries := s.entries ++ [pack] }) s =
        { s with entries := s.entries ++ l } := by
  induction l with
  | nil => intro s; simp
  | cons e es ih =>
      intro s
      rw [List.foldl_cons, ih]
      cases s with
      | mk entries dirs => simp [List.append_assoc]

theorem folder_entries_append (a b : List ZipEntry) :
    folder_entries (a ++ b) = folder_entries a ++ folder_entries b := by
  unfold folder_entries
  exact List.filter_append a b

theorem folder_entries_arcs {α : Type} (f : α → String) (g : α → String) (l : List α) :
    folder_entries (l.map (fun x => ZipEntry.arcE (f x) (g x))) = [] := by
  unfold folder_entries
  rw [List.filter_eq_nil_iff]
  intro e he
  obtain ⟨x, _, rfl⟩ := List.mem_map.mp he
  simp

theorem folder_entries_packs (project_name : String) (folders_to_exclude : List String)
    (ids : List Nat) :
    folder_entries (ids.map (optimized_pack project_name folders_to_exclude)) =
      ids.map (optimized_pack project_name folders_to_exclude) := by
  unfold folder_entries
  rw [List.filter_eq_self]
  intro e he
  obtain ⟨i, _, rfl⟩ := List.mem_map.mp he
  simp [optimized_pack]

/-- The archive entries `StorageInterface.export_project` ends up with:
the packs, then the linked-datatype arcs when `linked_paths` is not `None`,
then the `Project.xml` arc when `optimize_size`. -/
theorem storage_export_project_entries (st : ZipSt) (project : Project)
    (project_datatypes : List Datatype) (folders_to_exclude : List String)
    (exp_folder : String) (linked_paths : Option (List String))
    (op : ModelOperation) (optimize_size : Bool) (now_str date_str : String) :
    (storage_export_project st project project_datatypes folders_to_exclude
      exp_folder linked_paths op optimize_size now_str date_str).2.entries =
      (if optimize_size then
        (new_op_ids project_datatypes []).map
          (optimized_pack project.name folders_to_exclude)
      else
        [ZipEntry.folderE (get_project_folder project.name) ""
          (folders_to_exclude ++ [TEMP_FOLDER])]) ++
      linked_paths.elim [] (fun paths => paths.map (fun pth =>
        ZipEntry.arcE pth
          (basename (get_operation_folder op.projectName op.id) ++ "/" ++
            basename pth))) ++
      (if optimize_size then
        [ZipEntry.arcE (get_project_meta_file_path project.name) TVB_PROJECT_FILE]
      else []) := by
  cases linked_paths with
  | none =>
      cases optimize_size with
      | true =>
          simp [storage_export_project, foldl_write_packs, write_zip_arc, Option.elim]
      | false =>
          simp [storage_export_project, foldl_write_packs, Option.elim]
  | some paths =>
      cases optimize_size with
      | true =>
          simp [storage_export_project, foldl_write_packs, write_zip_arc, Option.elim,
            export_datatypes_entries]
      | false =>
          simp [storage_export_project, foldl_write_packs, Option.elim,
            export_datatypes_entries]

/-- C3: with `optimize_size` the archive receives exactly one folder pack
per distinct operation id of the project's datatypes — each operation
folder under an archive path prefixed by its id — plus the `Project.xml`
metadata file; without `optimize_size` it receives the whole project folder
with the error folders and `TEMP` excluded, and no `Project.xml` entry. -/
theorem storage_export_project_archive (st : ZipSt) (project : Project)
    (project_datatypes : List Datatype) (folders_to_exclude : List String)
    (exp_folder : String) (linked_paths : Option (List String))
    (op : ModelOperation) (now_str date_str : String) :
    ((new_op_ids project_datatypes []).Nodup ∧
     (∀ dt ∈ project_datatypes,
        dt.fk_from_operation ∈ new_op_ids project_datatypes []) ∧
     (∀ i ∈ new_op_ids project_datatypes [],
        ∃ dt ∈ project_datatypes, dt.fk_from_operation = i) ∧
     folder_entries ((storage_export_project st project project_datatypes
        folders_to_exclude exp_folder linked_paths op true now_str date_str).2.entries) =
       (new_op_ids project_datatypes []).map
         (optimized_pack project.name folders_to_exclude) ∧
     ZipEntry.arcE (get_project_meta_file_path project.name) TVB_PROJECT_FILE ∈
       (storage_export_project st project project_datatypes folders_to_exclude
         exp_folder linked_paths op true now_str date_str).2.entries) ∧
    (folder_entries ((storage_export_project st project project_datatypes
        folders_to_exclude exp_folder linked_paths op false now_str date_str).2.entries) =
       [ZipEntry.folderE (get_project_folder project.name) ""
         (folders_to_exclude ++ [TEMP_FOLDER])] ∧
     ∀ src, ZipEntry.arcE src TVB_PROJECT_FILE ∉
       (storage_export_project st project project_datatypes folders_to_exclude
         exp_folder linked_paths op false now_str date_str).2.entries) := by
  have hE := fun (b : Bool) => storage_export_project_entries st project
    project_datatypes folders_to_exclude exp_folder linked_paths op b now_str date_str
  constructor
  · refine ⟨new_op_ids_nodup project_datatypes [], ?_, ?_, ?_, ?_⟩
    · intro dt hdt
      rcases new_op_ids_complete project_datatypes [] dt hdt with h | h
      · simp at h
      · exact h
    · exact new_op_ids_sound project_datatypes []
    · rw [hE true]
      simp only [if_true]
      rw [folder_entries_append, folder_entries_append, folder_entries_packs]
      have harcs : folder_entries (Option.elim linked_paths []
          (fun paths => paths.map (fun pth =>
            ZipEntry.arcE pth
              (basename (get_operation_folder op.projectName op.id) ++ "/" ++
                basename pth)))) = [] := by
        cases linked_paths with
        | none => rfl
        | some paths => exact folder_entries_arcs _ _ paths
      rw [harcs]
      simp [folder_entries]
    · rw [hE true]
      simp only [if_true]
      exact List.mem_append_right _ (List.mem_singleton.mpr rfl)
  · constructor
    · rw [hE false]
      simp only [Bool.false_eq_true, if_false]
      rw [folder_entries_append, folder_entries_append]
      have harcs : folder_entries (Option.elim linked_paths []
          (fun paths => paths.map (fun pth =>
            ZipEntry.arcE pth
              (basename (get_operation_folder op.projectName op.id) ++ "/" ++
                basename pth)))) = [] := by
        cases linked_paths with
        | none => rfl
        | some paths => exact folder_entries_arcs _ _ paths
      rw [harcs]
      simp [folder_entries]
    · intro src hmem
      rw [hE false] at hmem
      simp only [Bool.false_eq_true, if_false, List.append_nil] at hmem
      rcases List.mem_append.mp hmem with h | h
      · simp at h
      · cases linked_paths with
        | none => simp [Option.elim] at h
        | some paths =>
            simp only [Option.elim] at h
            obtain ⟨pth, _, heq⟩ := List.mem_map.mp h
            have harc := (ZipEntry.arcE.injEq _ _ _ _).mp heq
            exact append_slash_ne_project_file _ _ harc.2

/-! ## Theorems for C7 (`export_simulator_configuration`) -/

theorem copy_files_to_dirs (dest : String) (paths : List String) :
    ∀ fs : H5FS, (copy_files_to dest fs paths).dirs = fs.dirs := by
  induction paths with
  | nil => intro fs; rfl
  | cons p rest ih => intro fs; exact ih (copy_file fs p (pjoin dest (basename p)))

theorem remove_metadata_param_dirs (fs : H5FS) (path key : String) :
    (remove_metadata_param fs path key).dirs = fs.dirs := rfl

theorem copy_files_to_mono (dest : String) (paths : List String) :
    ∀ fs : H5FS, ∀ x ∈ fs.files, x ∈ (copy_files_to dest fs paths).files := by
  induction paths with
  | nil => intro fs x hx; exact hx
  | cons p rest ih =>
      intro fs x hx
      exact ih (copy_file fs p (pjoin dest (basename p))) x (List.mem_append_left _ hx)

theorem copy_files_to_mem (dest : String) (paths : List String) :
    ∀ fs : H5FS, ∀ q ∈ paths,
      ∃ m, (pjoin dest (basename q), m) ∈ (copy_files_to dest fs paths).files := by
  induction paths with
  | nil => intro fs q hq; simp at hq
  | cons p rest ih =>
      intro fs q hq
      rcases List.mem_cons.mp hq with rfl | hq'
      · exact ⟨fs.metaOf q, copy_files_to_mono dest rest _ _
          (List.mem_append_right _ (List.mem_singleton.mpr rfl))⟩
      · exact ih _ q hq'

theorem mem_files_remove_metadata (fs : H5FS) (path key p : String) (m : List String)
    (h : (p, m) ∈ fs.files) :
    ∃ m', (p, m') ∈ (remove_metadata_param fs path key).files := by
  have hmem := List.mem_map_of_mem (fun f : String × List String =>
    if f.1 = path then (f.1, f.2.filter (fun k => k ≠ key)) else f) h
  by_cases hp : p = path
  · refine ⟨m.filter (fun k => k ≠ key), ?_⟩
    have heq : (fun f : String × List String =>
        if f.1 = path then (f.1, f.2.filter (fun k => k ≠ key)) else f) (p, m) =
        (p, m.filter (fun k => k ≠ key)) := by simp [hp]
    rw [heq] at hmem
    exact hmem
  · refine ⟨m, ?_⟩
    have heq : (fun f : String × List String =>
        if f.1 = path then (f.1, f.2.filter (fun k => k ≠ key)) else f) (p, m) =
        (p, m) := by simp [hp]
    rw [heq] at hmem
    exact hmem

theorem remove_metadata_key_gone (fs : H5FS) (path key : String) :
    ∀ m, (path, m) ∈ (remove_metadata_param fs path key).files → key ∉ m := by
  intro m hmem
  unfold remove_metadata_param at hmem
  obtain ⟨⟨p0, m0⟩, _, heq⟩ := List.mem_map.mp hmem
  by_cases hp : p0 = path
  · rw [if_pos hp] at heq
    have hm : m = m0.filter (fun k => k ≠ key) := ((Prod.mk.injEq _ _ _ _).mp heq).2.symm
    rw [hm]
    intro hk
    rcases List.mem_filter.mp hk with ⟨_, hne⟩
    simp at hne
  · rw [if_neg hp] at heq
    exact absurd ((Prod.mk.injEq _ _ _ _).mp heq).1 hp

/-- Core of the simulator-configuration export: with `fs2`, `fs3`, `fs4` the
states after the two copy loops and the metadata strip, the staging folder
`S` holds every copied view-model and datatype, the copy of the root
view-model (gid `g`) has no `history_gid` key, and no directory has been
added or removed since the staging folder was created. -/
theorem export_sim_core (fs1 fs2 fs3 fs4 : H5FS) (S g : String)
    (allvm dt_paths : List String)
    (h2 : fs2 = copy_files_to S fs1 allvm)
    (h3 : fs3 = copy_files_to (pjoin S EXPORTED_SIMULATION_DTS_DIR) fs2 dt_paths)
    (h4 : fs4 = remove_metadata_param fs3 (determine_filepath g S) "history_gid") :
    (∀ p ∈ allvm, ∃ m, (pjoin S (basename p), m) ∈ fs4.files) ∧
    (∀ p ∈ dt_paths,
      ∃ m, (pjoin (pjoin S EXPORTED_SIMULATION_DTS_DIR) (basename p), m) ∈
        fs4.files) ∧
    (∀ m, (determine_filepath g S, m) ∈ fs4.files → "history_gid" ∉ m) ∧
    fs4.dirs = fs1.dirs := by
  refine ⟨?_, ?_, ?_, ?_⟩
  · intro p hp
    obtain ⟨m, hm⟩ := copy_files_to_mem S allvm fs1 p hp
    rw [← h2] at hm
    have hm3 := copy_files_to_mono (pjoin S EXPORTED_SIMULATION_DTS_DIR) dt_paths
      fs2 _ hm
    rw [← h3] at hm3
    obtain ⟨m', hm4⟩ := mem_files_remove_metadata fs3 (determine_filepath g S)
      "history_gid" _ m hm3
    rw [← h4] at hm4
    exact ⟨m', hm4⟩
  · intro p hp
    obtain ⟨m, hm⟩ := copy_files_to_mem (pjoin S EXPORTED_SIMULATION_DTS_DIR)
      dt_paths fs2 p hp
    rw [← h3] at hm
    obtain ⟨m', hm4⟩ := mem_files_remove_metadata fs3 (determine_filepath g S)
      "history_gid" _ m hm
    rw [← h4] at hm4
    exact ⟨m', hm4⟩
  · intro m hmem
    rw [h4] at hmem
    exact remove_metadata_key_gone fs3 (determine_filepath g S) "history_gid" m hmem
  · rw [h4, remove_metadata_param_dirs, h3, copy_files_to_dirs, h2,
      copy_files_to_dirs]

/-- C7 (the code at the failing input): a missing burst raises
`InvalidExportDataException`; for every existing burst the flow stages the
gathered view-models (plus the burst file) under `exported_simulation`, the
datatypes under its `datatypes` subdirectory, and strips `history_gid` from
the copied root view-model — but the
`write_zip_folder(result_path, tmp_sim_folder)` call then dereferences the
never-initialized `self.tvb_zip` (`None`) and raises `AttributeError`: no
archive path is returned and the staging folder is still on disk. -/
theorem export_simulator_configuration_broken (fs : H5FS) (b : Burst)
    (vm_paths dt_paths : List String) (date_str now_str : String) (burst_id : Nat) :
    (export_simulator_configuration fs none vm_paths dt_paths date_str now_str
        burst_id none).2 = .error .invalidExportData ∧
    (export_simulator_configuration fs (some b) vm_paths dt_paths date_str now_str
        burst_id none).2 = .error .attributeError ∧
    pjoin (build_data_export_folder_path date_str b.gid export_folder)
        EXPORTED_SIMULATION_NAME ∈
      (export_simulator_configuration fs (some b) vm_paths dt_paths date_str now_str
        burst_id none).1.dirs ∧
    (∀ p ∈ vm_paths ++ [determine_filepath b.gid
        (get_operation_folder b.projectName (toString b.fk_simulation))],
      ∃ m, (pjoin (pjoin (build_data_export_folder_path date_str b.gid export_folder)
        EXPORTED_SIMULATION_NAME) (basename p), m) ∈
        (export_simulator_configuration fs (some b) vm_paths dt_paths date_str now_str
          burst_id none).1.files) ∧
    (∀ p ∈ dt_paths,
      ∃ m, (pjoin (pjoin (pjoin (build_data_export_folder_path date_str b.gid
          export_folder) EXPORTED_SIMULATION_NAME) EXPORTED_SIMULATION_DTS_DIR)
        (basename p), m) ∈
        (export_simulator_configuration fs (some b) vm_paths dt_paths date_str now_str
          burst_id none).1.files) ∧
    (∀ m, (determine_filepath b.simulator_gid
        (pjoin (build_data_export_folder_path date_str b.gid export_folder)
          EXPORTED_SIMULATION_NAME), m) ∈
        (export_simulator_configuration fs (some b) vm_paths dt_paths date_str now_str
          burst_id none).1.files → "history_gid" ∉ m) := by
  simp only [export_simulator_configuration, Option.elim, interface_write_zip_folder]
  refine ⟨trivial, trivial, ?_, ?_, ?_, ?_⟩
  · rw [(export_sim_core _ _ _ _ _ _ _ _ rfl rfl rfl).2.2.2]
    split
    · next h => exact h
    · next h => exact List.mem_append_right _ (List.mem_singleton.mpr rfl)
  · exact (export_sim_core _ _ _ _ _ _ _ _ rfl rfl rfl).1
  · exact (export_sim_core _ _ _ _ _ _ _ _ rfl rfl rfl).2.1
  · exact (export_sim_core _ _ _ _ _ _ _ _ rfl rfl rfl).2.2.1

end TVB

namespace TVB

/-- Witness for C10 at a concrete listing: the folder for operation "7" of
project "P" holds a matching file and a non-matching one. -/
theorem get_h5_by_gid_witness :
    (ListingFS.listdir
        ⟨[(get_operation_folder "P" "7",
           [⟨"other.h5", true⟩, ⟨"dt-abc.h5", true⟩])]⟩
        (get_operation_folder "P" "7") =
      some [⟨"other.h5", true⟩, ⟨"dt-abc.h5", true⟩]) ∧
    (∃ e ∈ [DirEntry.mk "other.h5" true, DirEntry.mk "dt-abc.h5" true],
      e.isFile = true ∧ strContains e.name "abc" = true ∧
        pjoin (get_operation_folder "P" "7") "dt-abc.h5" =
          pjoin (get_operation_folder "P" "7") e.name) := by
  refine ⟨by decide, ?_⟩
  have h := (get_h5_by_gid_spec
      ⟨[(get_operation_folder "P" "7",
         [⟨"other.h5", true⟩, ⟨"dt-abc.h5", true⟩])]⟩
      "P" "7" "abc" [⟨"other.h5", true⟩, ⟨"dt-abc.h5", true⟩] (by decide)).1
  exact h (pjoin (get_operation_folder "P" "7") "dt-abc.h5") (by rfl)

end TVB
